import Mathlib

/-!
Shallow embedding of the Zoho checkout/CRM integration router
(`src/vintel-integration/src/server/api/routers/checkout.ts`) and of the
registration endpoint, together with theorems checking the specification's
claims against the embedded code.

Modelling conventions:
* The Prisma database is a record of lists of rows; `findFirst`/`findUnique`
  become `List.find?`, `update` becomes `List.map` over the matching row,
  `create` prepends a row.
* Remote HTTP calls are passed in as explicit function arguments returning
  `Except TRPCError _` (the adapter's normalized outcome).
* Timestamps are integers (a day-granularity timeline); `new Date()` becomes
  a `now` parameter.
* JSON values are the inductive `Json`; JavaScript truthiness and
  `typeof x === "object"` are embedded as boolean functions on `Json`.
-/

namespace Vintel

/-- TRPC error codes used by the router. -/
inductive TRPCCode where
  | NOT_FOUND
  | BAD_REQUEST
  | INTERNAL_SERVER_ERROR
deriving DecidableEq, Repr

/-- `TRPCError` as thrown by the router: a code plus a message. -/
structure TRPCError where
  code : TRPCCode
  message : String
deriving DecidableEq, Repr

/-! ## JSON values and the JavaScript coercions used by the response handler -/

/-- A parsed JSON value (the result of `response.json()`). -/
inductive Json where
  | jnull
  | jbool (b : Bool)
  | jnum (n : Int)
  | jstr (s : String)
  | jarr (elems : List Json)
  | jobj (fields : List (String × Json))

/-- Field lookup on a JSON object (`obj.key`); `none` on non-objects. -/
def Json.lookupField : Json → String → Option Json
  | .jobj fields, key => (fields.find? (fun f => f.1 == key)).map (fun f => f.2)
  | _, _ => none

/-- JavaScript truthiness of a JSON value (`!data` is its negation). -/
def Json.jsTruthy : Json → Bool
  | .jnull => false
  | .jbool b => b
  | .jnum n => n != 0
  | .jstr s => s != ""
  | .jarr _ => true
  | .jobj _ => true

/-- `typeof data === "object"` for a JSON value (true for null, arrays, objects). -/
def Json.jsTypeofObject : Json → Bool
  | .jnull => true
  | .jarr _ => true
  | .jobj _ => true
  | _ => false

mutual

/-- String coercion applied by a template literal to a JSON value. -/
def Json.jsToString : Json → String
  | .jnull => "null"
  | .jbool true => "true"
  | .jbool false => "false"
  | .jnum n => toString n
  | .jstr s => s
  | .jarr elems => String.intercalate "," (Json.jsToStringList elems)
  | .jobj _ => "[object Object]"

/-- String coercions of a list of JSON values. -/
def Json.jsToStringList : List Json → List String
  | [] => []
  | j :: rest => Json.jsToString j :: Json.jsToStringList rest

end

/-- The spec's notion of a well-formed object payload: a JSON object or array
(JavaScript `typeof === "object"` values other than `null`). -/
def Json.isObjectValue : Json → Bool
  | .jarr _ => true
  | .jobj _ => true
  | _ => false

/-- `isZohoErrorResponse`: a non-null object with `code`, `message`, `status`
fields (the TS guard checks `typeof === "object"`, non-null, and `in`). -/
def isZohoErrorResponse (j : Json) : Bool :=
  (match j with | .jobj _ => true | _ => false) &&
    (j.lookupField "code").isSome &&
    (j.lookupField "message").isSome &&
    (j.lookupField "status").isSome

/-- An HTTP response as seen by `handleZohoApiResponse`: the `ok` flag,
`statusText`, and the JSON body (`none` when the body fails to parse). -/
structure HttpResponse where
  ok : Bool
  statusText : String
  body : Option Json

/-- A failure escaping `handleZohoApiResponse`: either a thrown `TRPCError`,
or the rejection of `response.json()` on a 2xx body that is not valid JSON. -/
inductive ApiFailure where
  | trpc (e : TRPCError)
  | jsonSyntax
deriving DecidableEq, Repr

/-- Embedding of `handleZohoApiResponse` (checkout.ts lines 205-232). -/
def handleZohoApiResponse (response : HttpResponse) : Except ApiFailure Json :=
  if !response.ok then
    let errorMessage :=
      match response.body with
      | some errorData =>
        if isZohoErrorResponse errorData then
          ((errorData.lookupField "message").map Json.jsToString).getD response.statusText
        else response.statusText
      | none => response.statusText
    .error (.trpc ⟨.INTERNAL_SERVER_ERROR, "Zoho API error: " ++ errorMessage⟩)
  else
    match response.body with
    | none => .error .jsonSyntax
    | some data =>
      if !data.jsTruthy || !data.jsTypeofObject then
        .error (.trpc ⟨.INTERNAL_SERVER_ERROR, "Invalid response format from Zoho API"⟩)
      else
        .ok data

/-! ## Database rows (Prisma models, as used by the router) -/

/-- A `CompanyInfo` row (the fields read by `createOrUpdateContact`). -/
structure CompanyInfo where
  contactName : Option String
  email : Option String
  phone : Option String
  companyName : Option String
  address : Option String
  city : Option String
  stateName : Option String
  zipCode : Option String
  country : Option String
  industry : Option String
deriving DecidableEq, Repr

/-- A `User` row (the fields read by the router). -/
structure UserRow where
  id : String
  email : Option String
deriving DecidableEq, Repr

/-- An `Agreement` row: its e-signature status. -/
structure Agreement where
  status : String
deriving DecidableEq, Repr

/-- A `CheckoutSession` row, with the relations the router fetches via
`include` (`companyInfo`, `agreement`, `user`) embedded. -/
structure CheckoutSession where
  id : String
  userId : String
  status : String
  module : Option String
  companyInfo : Option CompanyInfo
  agreement : Option Agreement
  user : Option UserRow
deriving DecidableEq, Repr

/-- A `ZohoAccountLink` row (the identity link, unique on `userId`). -/
structure ZohoAccountLink where
  userId : String
  zohoUserId : String
deriving DecidableEq, Repr

/-- A `SalesOrder` row (unique on `checkoutSessionId`). -/
structure SalesOrderRow where
  checkoutSessionId : String
  zohoSalesOrderId : Option String
  amount : Int
  currency : String
deriving DecidableEq, Repr

/-- A `SignupLink` row (see the `SignupLink` migration: unique on
`login_code`, indexed on `zoho_id`). -/
structure SignupLink where
  id : String
  zoho_id : String
  login_code : String
  expires_at : Int
  usage_limit : Int
  usage_count : Int
  is_active : Bool
deriving DecidableEq, Repr

/-- The database state shared by all operations. -/
structure DB where
  checkoutSessions : List CheckoutSession
  zohoAccountLinks : List ZohoAccountLink
  salesOrders : List SalesOrderRow
  signupLinks : List SignupLink
deriving DecidableEq, Repr

/-! ## Zoho entities returned by the remote API -/

/-- A Zoho contact (interface `ZohoContact`). -/
structure ZohoContact where
  id : String
  Company : Option String
  Email : String
  First_Name : Option String
  Last_Name : String
  Phone : Option String
deriving DecidableEq, Repr

/-- A Zoho sales order (interface `ZohoSalesOrder`). -/
structure ZohoSalesOrder where
  id : String
  Subject : String
  Status : String
  Grand_Total : Int
deriving DecidableEq, Repr

/-- A Zoho deal (interface `ZohoDeal`). -/
structure ZohoDeal where
  id : String
  Deal_Name : String
  Stage : String
  Amount : Int
deriving DecidableEq, Repr

/-- A Zoho task (interface `ZohoTask`). -/
structure ZohoTask where
  id : String
  Subject : String
  Status : String
  Due_Date : Option String
deriving DecidableEq, Repr

/-- A Zoho note (interface `ZohoNote`). -/
structure ZohoNote where
  id : String
  Note_Title : String
  Note_Content : String
deriving DecidableEq, Repr

/-! ## Signup link issuance and validation -/

/-- The alphabet used by `generateSecureLoginCode`. -/
def loginCodeChars : String := "ABCDEFGHIJKLMNOPQRSTUVWXYZ0123456789"

/-- JavaScript `s.charAt(i)` as a list of characters: one character when
`i` is in range, the empty string otherwise. -/
def jsCharAt (s : String) (i : Nat) : List Char :=
  match s.data.get? i with
  | some c => [c]
  | none => []

/-- Embedding of `generateSecureLoginCode` (lines 446-454): twelve draws
from the alphabet, indices supplied by the random stream `rand`
(`Math.floor(Math.random() * chars.length)` at iteration `i`). -/
def generateSecureLoginCode (rand : Nat → Nat) : String :=
  String.mk ((List.range 12).foldl
    (fun result i => result ++ jsCharAt loginCodeChars (rand i)) [])

/-- Input of the `validateSignupLink` query. -/
structure ValidateInput where
  zoho_id : String
  login_code : String
deriving DecidableEq, Repr

/-- Embedding of the `validateSignupLink` query (lines 985-1056).
`getContact` stands for `getZohoContact` (it may rethrow a `TRPCError`
or resolve to `none`). The result pairs the outcome with the database:
note that no branch writes `usage_count`. -/
def validateSignupLink
    (getContact : String → Except TRPCError (Option ZohoContact))
    (now : Int) (input : ValidateInput) (db : DB) :
    Except TRPCError (SignupLink × ZohoContact) × DB :=
  match db.signupLinks.find?
      (fun l => l.zoho_id == input.zoho_id && l.login_code == input.login_code) with
  | none => (.error ⟨.NOT_FOUND, "Signup link not found"⟩, db)
  | some signupLink =>
    if signupLink.expires_at < now then
      (.error ⟨.BAD_REQUEST, "Signup link has expired"⟩,
        { db with signupLinks := db.signupLinks.map (fun l =>
            if l.id == signupLink.id then { l with is_active := false } else l) })
    else if signupLink.usage_limit ≤ signupLink.usage_count then
      (.error ⟨.BAD_REQUEST, "Signup link has exceeded usage limit"⟩, db)
    else
      match getContact signupLink.zoho_id with
      | .error e => (.error e, db)
      | .ok none => (.error ⟨.NOT_FOUND, "Zoho contact not found"⟩, db)
      | .ok (some contact) => (.ok (signupLink, contact), db)

/-- Input of the `generateSignupLink` mutation. -/
structure GenerateInput where
  zoho_id : String
  expiresInDays : Int
deriving DecidableEq, Repr

/-- Embedding of the `generateSignupLink` mutation (lines 893-946).
`now` is the issuance instant (day granularity, so `setDate(getDate()+d)`
is `now + d`); `newId` the id Prisma assigns; `appUrl` the configured base
URL. `db.signupLink.create` enforces the unique index on `login_code`: a
colliding code makes the create throw, which the mutation's catch wraps as
an `INTERNAL_SERVER_ERROR` — no retry is attempted. -/
def generateSignupLink
    (getContact : String → Except TRPCError (Option ZohoContact))
    (rand : Nat → Nat) (now : Int) (newId : String) (appUrl : String)
    (input : GenerateInput) (db : DB) :
    Except TRPCError (SignupLink × String) × DB :=
  match getContact input.zoho_id with
  | .error e => (.error e, db)
  | .ok none => (.error ⟨.NOT_FOUND, "Zoho contact not found"⟩, db)
  | .ok (some _) =>
    let loginCode := generateSecureLoginCode rand
    let expiresAt := now + input.expiresInDays
    if db.signupLinks.any (fun l => l.login_code == loginCode) then
      (.error ⟨.INTERNAL_SERVER_ERROR, "Failed to generate signup link"⟩, db)
    else
      let link : SignupLink :=
        { id := newId, zoho_id := input.zoho_id, login_code := loginCode,
          expires_at := expiresAt, usage_limit := 1, usage_count := 0,
          is_active := true }
      (.ok (link, appUrl ++ "/magic-link/" ++ input.zoho_id ++ "/" ++ loginCode),
        { db with signupLinks := link :: db.signupLinks })

/-! ## Contact creation / update (`createOrUpdateContact`) -/

/-- The single record sent in `ZohoContactData.data`. -/
structure ZohoContactRecord where
  Last_Name : String
  First_Name : String
  Email : String
  Phone : String
  Company : String
  Mailing_Street : String
  Mailing_City : String
  Mailing_State : String
  Mailing_Zip : String
  Mailing_Country : String
  Industry : String
  Description : String
  Lead_Source : String
deriving DecidableEq, Repr

/-- `ZohoContactData`: the payload of contact create/update calls. -/
structure ZohoContactData where
  data : List ZohoContactRecord
  trigger : List String
deriving DecidableEq, Repr

/-- Input of the `createOrUpdateContact` mutation. -/
structure ContactMutationInput where
  userId : Option String
  checkoutSessionId : String
  requireAgreementSigned : Bool
deriving DecidableEq, Repr

/-- Result of a successful `createOrUpdateContact`. -/
structure ContactResult where
  zohoContactId : String
  isUpdate : Bool
deriving DecidableEq, Repr

/-- The agreement gate: the session has an agreement with status
`completed` (step 2 of `createOrUpdateContact`). -/
def agreementCompleted : Option Agreement → Bool
  | some a => a.status == "completed"
  | none => false

/-- The stored remote contact id for a user, when a link with a truthy
`zohoUserId` exists (`existingZohoLink?.zohoUserId`). -/
def lookupLinkId (links : List ZohoAccountLink) (uid : String) : Option String :=
  match links.find? (fun l => l.userId == uid) with
  | some l => if l.zohoUserId == "" then none else some l.zohoUserId
  | none => none

/-- Step 4 of `createOrUpdateContact`: build the Zoho payload from the
company info, the user row and the session (name split per the source). -/
def buildContactData (cs : CheckoutSession) (ci : CompanyInfo) (u : UserRow) :
    ZohoContactData :=
  let contactName := ci.contactName.getD ""
  let nameParts := contactName.splitOn " "
  let lastName := String.intercalate " " (nameParts.drop (nameParts.length - 1))
  let firstName := String.intercalate " " (nameParts.take (nameParts.length - 1))
  { data := [{
      Last_Name := lastName
      First_Name := firstName
      Email := ci.email.getD (u.email.getD "")
      Phone := ci.phone.getD ""
      Company := ci.companyName.getD ""
      Mailing_Street := ci.address.getD ""
      Mailing_City := ci.city.getD ""
      Mailing_State := ci.stateName.getD ""
      Mailing_Zip := ci.zipCode.getD ""
      Mailing_Country := ci.country.getD "US"
      Industry := ci.industry.getD ""
      Description := "Created via checkout session: " ++ cs.id
      Lead_Source := "Website Checkout" }]
    trigger := ["approval", "workflow"] }

/-- Step 5 of `createOrUpdateContact`: the remote write. Updates against the
stored id when a link exists, creates otherwise; a response without an id is
an error. Returns the remote contact id and the `isUpdate` flag. -/
def remoteContactStep
    (upd : String → ZohoContactData → Except TRPCError ZohoContact)
    (cre : ZohoContactData → Except TRPCError ZohoContact)
    (existing : Option String) (contactData : ZohoContactData) :
    Except TRPCError (String × Bool) :=
  match existing with
  | some storedId =>
    match upd storedId contactData with
    | .error e => .error e
    | .ok resp =>
      if resp.id == "" then
        .error ⟨.INTERNAL_SERVER_ERROR, "Failed to update Zoho contact"⟩
      else .ok (storedId, true)
  | none =>
    match cre contactData with
    | .error e => .error e
    | .ok resp =>
      if resp.id == "" then
        .error ⟨.INTERNAL_SERVER_ERROR, "Failed to get contact ID from Zoho response"⟩
      else .ok (resp.id, false)

/-- Step 6: `zohoAccountLink.upsert` keyed on `userId`. -/
def upsertZohoLink (links : List ZohoAccountLink) (uid zid : String) :
    List ZohoAccountLink :=
  if links.any (fun l => l.userId == uid) then
    links.map (fun l => if l.userId == uid then { l with zohoUserId := zid } else l)
  else
    { userId := uid, zohoUserId := zid } :: links

/-- `checkoutSession.update` of the status field. -/
def updateSessionStatus (sessions : List CheckoutSession) (sid newStatus : String) :
    List CheckoutSession :=
  sessions.map (fun s => if s.id == sid then { s with status := newStatus } else s)

/-- Embedding of the `createOrUpdateContact` mutation (lines 457-622).
`upd`/`cre` stand for `updateZohoContact`/`createZohoContact`; `sessionUserId`
is `ctx.session.user.id`. All failures leave the database untouched; on
success the link is upserted and the session status set to
`contact_created`. -/
def createOrUpdateContact
    (upd : String → ZohoContactData → Except TRPCError ZohoContact)
    (cre : ZohoContactData → Except TRPCError ZohoContact)
    (sessionUserId : String) (input : ContactMutationInput) (db : DB) :
    Except TRPCError ContactResult × DB :=
  match db.checkoutSessions.find?
      (fun s => s.id == input.checkoutSessionId
        && s.userId == input.userId.getD sessionUserId) with
  | none => (.error ⟨.NOT_FOUND, "Checkout session not found"⟩, db)
  | some checkoutSession =>
    match checkoutSession.companyInfo with
    | none => (.error ⟨.BAD_REQUEST, "Company information not found"⟩, db)
    | some companyInfo =>
      if input.requireAgreementSigned && !agreementCompleted checkoutSession.agreement then
        (.error ⟨.BAD_REQUEST, "Agreement must be signed before creating Zoho contact"⟩, db)
      else
        match checkoutSession.user with
        | none => (.error ⟨.INTERNAL_SERVER_ERROR, "User data not found"⟩, db)
        | some user =>
          let contactData := buildContactData checkoutSession companyInfo user
          match remoteContactStep upd cre
              (lookupLinkId db.zohoAccountLinks (input.userId.getD sessionUserId)) contactData with
          | .error e => (.error e, db)
          | .ok (zohoContactId, isUpdate) =>
            let db1 : DB :=
              { db with zohoAccountLinks :=
                  upsertZohoLink db.zohoAccountLinks (input.userId.getD sessionUserId) zohoContactId }
            let db2 : DB :=
              { db1 with checkoutSessions :=
                  updateSessionStatus db1.checkoutSessions input.checkoutSessionId "contact_created" }
            (.ok ⟨zohoContactId, isUpdate⟩, db2)

/-! ## Sales order creation (`createSalesOrder`) -/

/-- The single record sent in `ZohoSalesOrderData.data`. -/
structure ZohoSalesOrderRecord where
  Contact_Name : String
  Subject : String
  Deal_Name : String
  Grand_Total : Int
  Sub_Total : Int
  Tax_Amount : Int
  Discount : Int
  Adjustment : Int
  Status : String
  Description : String
  Terms_and_Conditions : String
deriving DecidableEq, Repr

/-- `ZohoSalesOrderData`: the payload of the sales-order create call. -/
structure ZohoSalesOrderData where
  data : List ZohoSalesOrderRecord
  trigger : List String
deriving DecidableEq, Repr

/-- Input of the `createSalesOrder` mutation. -/
structure SalesOrderInput where
  checkoutSessionId : String
  requirePaymentConfirmed : Bool
  requireContactCreated : Bool
deriving DecidableEq, Repr

/-- Result of a successful `createSalesOrder`. -/
structure SalesOrderResult where
  zohoSalesOrderId : String
  zohoContactId : String
  checkoutSessionId : String
deriving DecidableEq, Repr

/-- Step 6 of `createSalesOrder`: build the Zoho sales-order payload. -/
def buildSalesOrderData (cs : CheckoutSession) (zohoUserId : String)
    (orderAmount : Int) : ZohoSalesOrderData :=
  { data := [{
      Contact_Name := zohoUserId
      Subject := (cs.module.getD "Zoho Integration") ++ " - " ++ cs.id
      Deal_Name := (cs.module.getD "Zoho Integration") ++ " Deal"
      Grand_Total := orderAmount
      Sub_Total := orderAmount
      Tax_Amount := 0
      Discount := 0
      Adjustment := 0
      Status := "Draft"
      Description := "Sales order created from checkout session: " ++ cs.id
      Terms_and_Conditions := "Payment processed via Stripe. Agreement signed via DocuSign." }]
    trigger := ["approval", "workflow"] }

/-- Embedding of the `createSalesOrder` mutation (lines 624-770). `creSO`
stands for `createZohoSalesOrder`. Preconditions are checked before the
remote call; the remote call precedes the status write and the local
sales-order upsert. -/
def createSalesOrder
    (creSO : ZohoSalesOrderData → Except TRPCError ZohoSalesOrder)
    (sessionUserId : String) (input : SalesOrderInput) (db : DB) :
    Except TRPCError SalesOrderResult × DB :=
  match db.checkoutSessions.find?
      (fun s => s.id == input.checkoutSessionId && s.userId == sessionUserId) with
  | none => (.error ⟨.NOT_FOUND, "Checkout session not found"⟩, db)
  | some checkoutSession =>
    if input.requirePaymentConfirmed &&
        !(checkoutSession.status == "payment_completed"
          || checkoutSession.status == "contact_created") then
      (.error ⟨.BAD_REQUEST, "Payment must be confirmed before creating sales order"⟩, db)
    else if input.requireContactCreated && !(checkoutSession.status == "contact_created") then
      (.error ⟨.BAD_REQUEST, "Contact must be created before creating sales order"⟩, db)
    else
      match lookupLinkId db.zohoAccountLinks sessionUserId with
      | none => (.error ⟨.NOT_FOUND, "Zoho contact not found"⟩, db)
      | some zohoUserId =>
        let existingSalesOrder :=
          db.salesOrders.find? (fun r => r.checkoutSessionId == input.checkoutSessionId)
        let orderAmount := (existingSalesOrder.map (fun r => r.amount)).getD 0
        let salesOrderData := buildSalesOrderData checkoutSession zohoUserId orderAmount
        match creSO salesOrderData with
        | .error e => (.error e, db)
        | .ok createResponse =>
          if createResponse.id == "" then
            (.error ⟨.INTERNAL_SERVER_ERROR, "Failed to get sales order ID from Zoho response"⟩, db)
          else
            let zohoSalesOrderId := createResponse.id
            let db1 : DB :=
              { db with checkoutSessions :=
                  updateSessionStatus db.checkoutSessions input.checkoutSessionId "sales_order_created" }
            let db2 : DB :=
              match existingSalesOrder with
              | some _ =>
                { db1 with salesOrders := db1.salesOrders.map (fun r =>
                    if r.checkoutSessionId == input.checkoutSessionId then
                      { r with zohoSalesOrderId := some zohoSalesOrderId }
                    else r) }
              | none =>
                { db1 with salesOrders :=
                    { checkoutSessionId := input.checkoutSessionId,
                      zohoSalesOrderId := some zohoSalesOrderId,
                      amount := orderAmount, currency := "USD" } :: db1.salesOrders }
            (.ok ⟨zohoSalesOrderId, zohoUserId, input.checkoutSessionId⟩, db2)

/-! ## Aggregated CRM read (`getCRMData`) -/

/-- The aggregate returned by `getCRMData`. -/
structure CRMData where
  contact : Option ZohoContact
  salesOrders : List ZohoSalesOrder
  deals : List ZohoDeal
  tasks : List ZohoTask
  notes : List ZohoNote
deriving DecidableEq, Repr

/-- Input of the `getCRMData` query. -/
structure CRMInput where
  zohoContactId : String
  includeSalesOrders : Bool
  includeDeals : Bool
  includeTasks : Bool
  includeNotes : Bool
deriving DecidableEq, Repr

/-- Embedding of `getZohoContact` (lines 280-297) over the handled API
outcome: rethrows `TRPCError`s, turns any other failure into `null`. -/
def getZohoContact (apiResult : Except ApiFailure ZohoContact) :
    Except TRPCError (Option ZohoContact) :=
  match apiResult with
  | .ok c => .ok (some c)
  | .error (.trpc e) => .error e
  | .error .jsonSyntax => .ok none

/-- Embedding of the search helpers (`searchZohoSalesOrders` and friends,
lines 323-443) over the handled API outcome: rethrows `TRPCError`s, turns
any other failure into the empty list. -/
def searchZohoEntities {α : Type} (apiResult : Except ApiFailure (List α)) :
    Except TRPCError (List α) :=
  match apiResult with
  | .ok v => .ok v
  | .error (.trpc e) => .error e
  | .error .jsonSyntax => .ok []

/-- Embedding of the `getCRMData` query (lines 1058-1170). The five fetch
arguments are the outcomes of the corresponding remote calls; each is
consumed inside its own `try`/`catch`, so a failure leaves that category at
its default. Returns `none` exactly when no contact id can be resolved. -/
def getCRMData (sessionUserId : String) (db : DB)
    (contactFetch : Except TRPCError (Option ZohoContact))
    (salesOrdersFetch : Except TRPCError (List ZohoSalesOrder))
    (dealsFetch : Except TRPCError (List ZohoDeal))
    (tasksFetch : Except TRPCError (List ZohoTask))
    (notesFetch : Except TRPCError (List ZohoNote))
    (input : CRMInput) : Option CRMData :=
  let resolvedId : Option String :=
    if input.zohoContactId != "" then some input.zohoContactId
    else lookupLinkId db.zohoAccountLinks sessionUserId
  match resolvedId with
  | none => none
  | some _ =>
    some {
      contact := match contactFetch with | .ok c => c | .error _ => none
      salesOrders :=
        if input.includeSalesOrders then
          match salesOrdersFetch with | .ok v => v | .error _ => []
        else []
      deals :=
        if input.includeDeals then
          match dealsFetch with | .ok v => v | .error _ => []
        else []
      tasks :=
        if input.includeTasks then
          match tasksFetch with | .ok v => v | .error _ => []
        else []
      notes :=
        if input.includeNotes then
          match notesFetch with | .ok v => v | .error _ => []
        else [] }

/-! ## Registration endpoint (`POST /api/register`, src/unnamed/part_000) -/

/-- A registration payload that passed the zod schema. -/
structure RegData where
  email : String
  password : String
  name : Option String
deriving DecidableEq, Repr

/-- A `User` row in the registration store (unique on `email`). -/
structure UserStoreRow where
  id : String
  email : String
  name : Option String
  password : String
deriving DecidableEq, Repr

/-- The HTTP outcome of the register endpoint. -/
inductive RegisterResult where
  | badRequest (msg : String)
  | created (id : String) (email : String) (name : Option String)
deriving DecidableEq, Repr

/-- Embedding of the register `POST` handler (part_000 lines 13-66).
`parsed` is the outcome of `registrationSchema.safeParse` (`none` when zod
validation fails); `hashFn` stands for bcrypt; `newId` is the id the store
assigns. Returns the response and the new user table. -/
def registerPOST (hashFn : String → String) (newId : String)
    (parsed : Option RegData) (users : List UserStoreRow) :
    RegisterResult × List UserStoreRow :=
  match parsed with
  | none => (.badRequest "Invalid input", users)
  | some r =>
    match users.find? (fun u => u.email == r.email) with
    | some _ => (.badRequest "User already exists", users)
    | none =>
      let u : UserStoreRow :=
        { id := newId, email := r.email, name := r.name, password := hashFn r.password }
      (.created u.id u.email u.name, u :: users)

/-- A concrete signup link already expired at validation time. -/
def c4Link : SignupLink := ⟨"L4", "Z4", "EXPIREDCODE1", 3, 1, 0, true⟩

/-- A database holding only `c4Link`. -/
def c4Db : DB := ⟨[], [], [], [c4Link]⟩

/-- A contact fetch stub returning a fixed contact. -/
def c4GetContact : String → Except TRPCError (Option ZohoContact) :=
  fun _ => .ok (some ⟨"Z4", none, "c@example.com", none, "Doe", none⟩)

/-- A concrete remote contact for the unexpired signup-link scenario. -/
def c1Contact : ZohoContact := ⟨"Z1", none, "jane@acme.com", none, "Doe", none⟩

/-- A contact fetch stub resolving to `c1Contact`. -/
def c1GetContact : String → Except TRPCError (Option ZohoContact) :=
  fun _ => .ok (some c1Contact)

/-- A fresh single-use signup link (`usage_limit = 1`, `usage_count = 0`). -/
def c1Link : SignupLink := ⟨"L1", "Z1", "ABCD1234EFGH", 100, 1, 0, true⟩

/-- A database holding only `c1Link`. -/
def c1Db : DB := ⟨[], [], [], [c1Link]⟩

/-- The validation request matching `c1Link`. -/
def c1Input : ValidateInput := ⟨"Z1", "ABCD1234EFGH"⟩

/-- A concrete structured Zoho error body. -/
def c7ErrBody : Json :=
  .jobj [("code", .jstr "INVALID_TOKEN"), ("message", .jstr "invalid oauth token"),
    ("status", .jstr "error")]

/-- A concrete non-2xx response carrying `c7ErrBody`. -/
def c7RespErr : HttpResponse := ⟨false, "Bad Request", some c7ErrBody⟩

/-- A concrete 2xx response whose body is a bare string. -/
def c7RespStr : HttpResponse := ⟨true, "OK", some (.jstr "oops")⟩

/-- A concrete 2xx response whose body is an object. -/
def c7RespOk : HttpResponse := ⟨true, "OK", some (.jobj [("id", .jstr "123")])⟩

/-- A concrete CRM query input requesting every category. -/
def c8Input : CRMInput := ⟨"Z77", true, true, true, true⟩

/-- A concrete sales-order list for the C8 witness. -/
def c8Orders : List ZohoSalesOrder := [⟨"SO1", "Order", "Draft", 42⟩]

/-- A concrete session that has not paid yet. -/
def c3Session : CheckoutSession := ⟨"cs1", "u1", "created", none, none, none, none⟩

/-- A concrete database holding only `c3Session`. -/
def c3Db : DB := ⟨[c3Session], [], [], []⟩

/-- A concrete `createSalesOrder` input with both requirement flags set. -/
def c3Input : SalesOrderInput := ⟨"cs1", true, true⟩

/-- A concrete remote sales-order create that would succeed if reached. -/
def c3Cre : ZohoSalesOrderData → Except TRPCError ZohoSalesOrder :=
  fun _ => .ok ⟨"SO1", "subject", "Draft", 0⟩

/-- A remote contact update stub that succeeds with the stored id. -/
def updOk : String → ZohoContactData → Except TRPCError ZohoContact :=
  fun i _ => .ok ⟨i, none, "c@example.com", none, "Doe", none⟩

/-- A remote contact create stub that succeeds with id `ZC1`. -/
def creOk : ZohoContactData → Except TRPCError ZohoContact :=
  fun _ => .ok ⟨"ZC1", none, "c@example.com", none, "Doe", none⟩

/-- Concrete company info for witness scenarios. -/
def ciStub : CompanyInfo :=
  ⟨some "Jane Doe", some "jane@acme.com", some "555", some "Acme",
    some "1 Main St", some "Springfield", some "IL", some "62704", some "US",
    some "Auto"⟩

/-- A database whose single session has company info, a completed agreement
and a user, so that the advance operations reach the remote call. -/
def c6Db : DB :=
  ⟨[⟨"cs1", "u1", "created", some "VinTel", some ciStub, some ⟨"completed"⟩,
      some ⟨"u1", some "jane@acme.com"⟩⟩], [], [], []⟩

/-- A remote contact update stub that always fails. -/
def updFail : String → ZohoContactData → Except TRPCError ZohoContact :=
  fun _ _ => .error ⟨.INTERNAL_SERVER_ERROR, "Zoho API error: down"⟩

/-- A remote contact create stub that always fails. -/
def creFail : ZohoContactData → Except TRPCError ZohoContact :=
  fun _ => .error ⟨.INTERNAL_SERVER_ERROR, "Zoho API error: down"⟩

/-- A remote sales-order create stub that always fails. -/
def creSOFail : ZohoSalesOrderData → Except TRPCError ZohoSalesOrder :=
  fun _ => .error ⟨.INTERNAL_SERVER_ERROR, "Zoho API error: down"⟩

/-- The contact mutation input for the C2 witness. -/
def c2Input : ContactMutationInput := ⟨none, "cs1", true⟩

/-- The database after a successful first contact creation on `c6Db`: one
link row, session advanced to `contact_created`. -/
def c2Db1 : DB :=
  ⟨[⟨"cs1", "u1", "contact_created", some "VinTel", some ciStub, some ⟨"completed"⟩,
      some ⟨"u1", some "jane@acme.com"⟩⟩], [⟨"u1", "ZC1"⟩], [], []⟩

/-- A constant in-range random stream: every draw picks index 5. -/
def c9Rand : Nat → Nat := fun _ => 5

/-- The constant zero random stream: the generated code is `AAAAAAAAAAAA`. -/
def c9RandZero : Nat → Nat := fun _ => 0

/-- A link whose code equals the one `c9RandZero` generates. -/
def c9Existing : SignupLink := ⟨"L9", "Z9", "AAAAAAAAAAAA", 50, 1, 0, true⟩

/-- A database already holding `c9Existing`. -/
def c9Db : DB := ⟨[], [], [], [c9Existing]⟩

/-- An existing registered user for the C10 witness. -/
def c10User : UserStoreRow := ⟨"u1", "a@b.com", some "Alice", "hashed"⟩

/-- A registration payload reusing the taken email. -/
def c10Reg : RegData := ⟨"a@b.com", "password1", none⟩

/-! ## Theorems -/

/-- C4: with a matching link found, an expired link (expiry strictly in the
past) makes `validateSignupLink` fail with `Expired` and flips that link's
`is_active` flag to false (other links untouched), while a usage-limit
failure returns `LimitExceeded` and leaves the database — the active flag
included — completely unchanged. -/
theorem validateSignupLink_expiry_deactivates
    (getContact : String → Except TRPCError (Option ZohoContact))
    (now : Int) (input : ValidateInput) (db : DB) (link : SignupLink)
    (hfind : db.signupLinks.find?
        (fun l => l.zoho_id == input.zoho_id && l.login_code == input.login_code)
      = some link) :
    (link.expires_at < now →
      (validateSignupLink getContact now input db).1 =
        .error ⟨.BAD_REQUEST, "Signup link has expired"⟩ ∧
      (∀ l ∈ (validateSignupLink getContact now input db).2.signupLinks,
        l.id = link.id → l.is_active = false) ∧
      (∀ l ∈ (validateSignupLink getContact now input db).2.signupLinks,
        l.id ≠ link.id → l ∈ db.signupLinks)) ∧
    (¬ link.expires_at < now → link.usage_limit ≤ link.usage_count →
      validateSignupLink getContact now input db =
        (.error ⟨.BAD_REQUEST, "Signup link has exceeded usage limit"⟩, db)) := by
  constructor
  · intro hexp
    have hres : validateSignupLink getContact now input db =
        (.error ⟨.BAD_REQUEST, "Signup link has expired"⟩,
          { db with signupLinks := db.signupLinks.map (fun l =>
              if l.id == link.id then { l with is_active := false } else l) }) := by
      simp [validateSignupLink, hfind, hexp]
    refine ⟨by rw [hres], ?_, ?_⟩
    · rw [hres]
      intro l hl hid
      rcases List.mem_map.mp hl with ⟨l', hl', rfl⟩
      by_cases hb : (l'.id == link.id) = true
      · simp [hb]
      · simp only [hb, if_false, Bool.false_eq_true] at hid ⊢
        exact absurd hid (by simpa using hb)
    · rw [hres]
      intro l hl hid
      rcases List.mem_map.mp hl with ⟨l', hl', rfl⟩
      by_cases hb : (l'.id == link.id) = true
      · exact absurd (by simpa using hb) (by simpa [hb] using hid)
      · simpa [hb] using hl'
  · intro hexp hlim
    simp [validateSignupLink, hfind, hexp, hlim]

/-- Witness for C4: validating `c4Link` at time 10 (past its expiry 3) fails
with `Expired` and deactivates it. -/
theorem validateSignupLink_expiry_deactivates_witness :
    (validateSignupLink c4GetContact 10 ⟨"Z4", "EXPIREDCODE1"⟩ c4Db).1 =
      .error ⟨.BAD_REQUEST, "Signup link has expired"⟩ ∧
    (∀ l ∈ (validateSignupLink c4GetContact 10 ⟨"Z4", "EXPIREDCODE1"⟩ c4Db).2.signupLinks,
      l.id = c4Link.id → l.is_active = false) :=
  have h := (validateSignupLink_expiry_deactivates c4GetContact 10 ⟨"Z4", "EXPIREDCODE1"⟩
    c4Db c4Link rfl).1 (by decide)
  ⟨h.1, h.2.1⟩

/-- C1: the code never increments `usage_count`. For the single-use link
`c1Link` the first `validateSignupLink` call succeeds but returns the
database unchanged (`usage_count` still 0 instead of 1), and a second call
on the resulting database succeeds again instead of failing with
`LimitExceeded`. -/
theorem validateSignupLink_usage_count_never_incremented :
    validateSignupLink c1GetContact 0 c1Input c1Db = (.ok (c1Link, c1Contact), c1Db) ∧
    (validateSignupLink c1GetContact 0 c1Input
        ((validateSignupLink c1GetContact 0 c1Input c1Db).2)).1 = .ok (c1Link, c1Contact) ∧
    ((validateSignupLink c1GetContact 0 c1Input c1Db).2.signupLinks.map
        SignupLink.usage_count) = [0] :=
  ⟨rfl, rfl, rfl⟩

/-- A JSON value passes the handler's 2xx shape check exactly when it is an
object value (array or object): truthiness excludes `null`, and
`typeof === "object"` excludes booleans, numbers and strings. -/
theorem jsCheck_eq_isObjectValue (j : Json) :
    (j.jsTruthy && j.jsTypeofObject) = j.isObjectValue := by
  cases j <;> simp [Json.jsTruthy, Json.jsTypeofObject, Json.isObjectValue]

/-- C7: `handleZohoApiResponse` raises `UpstreamError` on every non-2xx
response — with the structured error body's `message` when one parses as a
Zoho error object, and with the transport `statusText` otherwise — raises
`InvalidResponse` on a 2xx body that parses but is not an object value, and
returns a 2xx object body unchanged. -/
theorem handleZohoApiResponse_normalization :
    (∀ (r : HttpResponse) (j : Json) (s : String), r.ok = false → r.body = some j →
        isZohoErrorResponse j = true → j.lookupField "message" = some (.jstr s) →
        handleZohoApiResponse r =
          .error (.trpc ⟨.INTERNAL_SERVER_ERROR, "Zoho API error: " ++ s⟩)) ∧
    (∀ r : HttpResponse, r.ok = false →
        (r.body = none ∨ ∃ j, r.body = some j ∧ isZohoErrorResponse j = false) →
        handleZohoApiResponse r =
          .error (.trpc ⟨.INTERNAL_SERVER_ERROR, "Zoho API error: " ++ r.statusText⟩)) ∧
    (∀ (r : HttpResponse) (j : Json), r.ok = true → r.body = some j →
        j.isObjectValue = false →
        handleZohoApiResponse r =
          .error (.trpc ⟨.INTERNAL_SERVER_ERROR, "Invalid response format from Zoho API"⟩)) ∧
    (∀ (r : HttpResponse) (j : Json), r.ok = true → r.body = some j →
        j.isObjectValue = true → handleZohoApiResponse r = .ok j) := by
  refine ⟨?_, ?_, ?_, ?_⟩
  · intro r j s h1 h2 h3 h4
    simp [handleZohoApiResponse, h1, h2, h3, h4, Json.jsToString]
  · intro r h1 h2
    rcases h2 with h2 | ⟨j, h2, h3⟩
    · simp [handleZohoApiResponse, h1, h2]
    · simp [handleZohoApiResponse, h1, h2, h3]
  · intro r j h1 h2 h3
    cases j <;>
      simp_all [handleZohoApiResponse, Json.isObjectValue, Json.jsTruthy,
        Json.jsTypeofObject]
  · intro r j h1 h2 h3
    cases j <;>
      simp_all [handleZohoApiResponse, Json.isObjectValue, Json.jsTruthy,
        Json.jsTypeofObject]

/-- Witness for C7 at concrete responses. -/
theorem handleZohoApiResponse_normalization_witness :
    handleZohoApiResponse c7RespErr =
      .error (.trpc ⟨.INTERNAL_SERVER_ERROR, "Zoho API error: " ++ "invalid oauth token"⟩) ∧
    handleZohoApiResponse c7RespStr =
      .error (.trpc ⟨.INTERNAL_SERVER_ERROR, "Invalid response format from Zoho API"⟩) ∧
    handleZohoApiResponse c7RespOk = .ok (.jobj [("id", .jstr "123")]) :=
  ⟨handleZohoApiResponse_normalization.1 c7RespErr c7ErrBody "invalid oauth token"
      rfl rfl (by decide) rfl,
   handleZohoApiResponse_normalization.2.2.1 c7RespStr (.jstr "oops") rfl rfl rfl,
   handleZohoApiResponse_normalization.2.2.2 c7RespOk (.jobj [("id", .jstr "123")])
      rfl rfl rfl⟩

/-- C8: in `getCRMData` every sub-fetch is independently best-effort. When a
contact id resolves, the aggregate succeeds; replacing any single sub-fetch
outcome by a failure only resets that category to its default (null contact,
empty list), leaving every other category of the aggregate unchanged. -/
theorem getCRMData_best_effort (sessionUserId : String) (db : DB)
    (cF : Except TRPCError (Option ZohoContact))
    (sF : Except TRPCError (List ZohoSalesOrder))
    (dF : Except TRPCError (List ZohoDeal))
    (tF : Except TRPCError (List ZohoTask))
    (nF : Except TRPCError (List ZohoNote))
    (input : CRMInput) (e : TRPCError)
    (h : input.zohoContactId ≠ "") :
    (getCRMData sessionUserId db cF sF dF tF nF input).isSome = true ∧
    getCRMData sessionUserId db (.error e) sF dF tF nF input =
      (getCRMData sessionUserId db cF sF dF tF nF input).map
        (fun c => { c with contact := none }) ∧
    getCRMData sessionUserId db cF (.error e) dF tF nF input =
      (getCRMData sessionUserId db cF sF dF tF nF input).map
        (fun c => { c with salesOrders := [] }) ∧
    getCRMData sessionUserId db cF sF (.error e) tF nF input =
      (getCRMData sessionUserId db cF sF dF tF nF input).map
        (fun c => { c with deals := [] }) ∧
    getCRMData sessionUserId db cF sF dF (.error e) nF input =
      (getCRMData sessionUserId db cF sF dF tF nF input).map
        (fun c => { c with tasks := [] }) ∧
    getCRMData sessionUserId db cF sF dF tF (.error e) input =
      (getCRMData sessionUserId db cF sF dF tF nF input).map
        (fun c => { c with notes := [] }) := by
  have h' : (input.zohoContactId != "") = true := by
    simp only [bne_iff_ne, ne_eq]
    exact h
  refine ⟨?_, ?_, ?_, ?_, ?_, ?_⟩ <;>
    simp [getCRMData, h']

/-- Witness for C8: with a failing deals fetch, the aggregate still succeeds,
deals come back empty, and the sales orders survive. -/
theorem getCRMData_best_effort_witness :
    getCRMData "u1" ⟨[], [], [], []⟩ (.ok none) (.ok c8Orders) (.error ⟨.INTERNAL_SERVER_ERROR, "down"⟩)
        (.ok []) (.ok []) c8Input =
      (getCRMData "u1" ⟨[], [], [], []⟩ (.ok none) (.ok c8Orders) (.ok []) (.ok []) (.ok []) c8Input).map
        (fun c => { c with deals := [] }) :=
  (getCRMData_best_effort "u1" ⟨[], [], [], []⟩ (.ok none) (.ok c8Orders) (.ok [])
      (.ok []) (.ok []) c8Input ⟨.INTERNAL_SERVER_ERROR, "down"⟩
      (by decide)).2.2.2.1

/-- C3: on a session still in status `created`, `createSalesOrder` with
`requirePaymentConfirmed = true` fails with the payment `PreconditionFailed`
error, the database is untouched, and no `SalesOrder` row for that session
acquires a remote sales-order id. -/
theorem createSalesOrder_unpaid_precondition
    (creSO : ZohoSalesOrderData → Except TRPCError ZohoSalesOrder)
    (sessionUserId : String) (input : SalesOrderInput) (db : DB) (s : CheckoutSession)
    (hfind : db.checkoutSessions.find?
        (fun x => x.id == input.checkoutSessionId && x.userId == sessionUserId) = some s)
    (hstatus : s.status = "created")
    (hreq : input.requirePaymentConfirmed = true)
    (hclean : ∀ row ∈ db.salesOrders,
        row.checkoutSessionId = input.checkoutSessionId → row.zohoSalesOrderId = none) :
    createSalesOrder creSO sessionUserId input db =
      (.error ⟨.BAD_REQUEST, "Payment must be confirmed before creating sales order"⟩, db) ∧
    (∀ row ∈ (createSalesOrder creSO sessionUserId input db).2.salesOrders,
        row.checkoutSessionId = input.checkoutSessionId → row.zohoSalesOrderId = none) := by
  have hmain : createSalesOrder creSO sessionUserId input db =
      (.error ⟨.BAD_REQUEST, "Payment must be confirmed before creating sales order"⟩, db) := by
    simp [createSalesOrder, hfind, hstatus, hreq]
  refine ⟨hmain, ?_⟩
  rw [hmain]
  exact hclean

/-- Witness for C3 at a concrete unpaid session. -/
theorem createSalesOrder_unpaid_precondition_witness :
    createSalesOrder c3Cre "u1" c3Input c3Db =
      (.error ⟨.BAD_REQUEST, "Payment must be confirmed before creating sales order"⟩, c3Db) ∧
    (∀ row ∈ (createSalesOrder c3Cre "u1" c3Input c3Db).2.salesOrders,
        row.checkoutSessionId = c3Input.checkoutSessionId → row.zohoSalesOrderId = none) :=
  createSalesOrder_unpaid_precondition c3Cre "u1" c3Input c3Db c3Session
    rfl rfl rfl (by simp [c3Db])

/-- C5: `createOrUpdateContact` fails with `NotFound` when no session matches
the id and the requesting principal, with `PreconditionFailed` when company
info is missing, and with `PreconditionFailed` when the agreement gate is on
and the agreement is not completed; each failure leaves the database — and
hence the session status — unchanged. -/
theorem createOrUpdateContact_failure_modes
    (upd : String → ZohoContactData → Except TRPCError ZohoContact)
    (cre : ZohoContactData → Except TRPCError ZohoContact)
    (sessionUserId : String) (input : ContactMutationInput) (db : DB) :
    (db.checkoutSessions.find?
        (fun s => s.id == input.checkoutSessionId
          && s.userId == input.userId.getD sessionUserId) = none →
      createOrUpdateContact upd cre sessionUserId input db =
        (.error ⟨.NOT_FOUND, "Checkout session not found"⟩, db)) ∧
    (∀ s : CheckoutSession,
      db.checkoutSessions.find?
        (fun x => x.id == input.checkoutSessionId
          && x.userId == input.userId.getD sessionUserId) = some s →
      s.companyInfo = none →
      createOrUpdateContact upd cre sessionUserId input db =
        (.error ⟨.BAD_REQUEST, "Company information not found"⟩, db)) ∧
    (∀ (s : CheckoutSession) (ci : CompanyInfo),
      db.checkoutSessions.find?
        (fun x => x.id == input.checkoutSessionId
          && x.userId == input.userId.getD sessionUserId) = some s →
      s.companyInfo = some ci →
      input.requireAgreementSigned = true →
      agreementCompleted s.agreement = false →
      createOrUpdateContact upd cre sessionUserId input db =
        (.error ⟨.BAD_REQUEST, "Agreement must be signed before creating Zoho contact"⟩, db)) := by
  refine ⟨?_, ?_, ?_⟩
  · intro hfind
    simp [createOrUpdateContact, hfind]
  · intro s hfind hci
    simp [createOrUpdateContact, hfind, hci]
  · intro s ci hfind hci hreq hagr
    simp [createOrUpdateContact, hfind, hci, hreq, hagr]

/-- Witness for C5: on an empty database the mutation reports `NotFound`. -/
theorem createOrUpdateContact_failure_modes_witness :
    createOrUpdateContact updOk creOk "u1" ⟨none, "cs1", true⟩ ⟨[], [], [], []⟩ =
      (.error ⟨.NOT_FOUND, "Checkout session not found"⟩, ⟨[], [], [], []⟩) :=
  (createOrUpdateContact_failure_modes updOk creOk "u1" ⟨none, "cs1", true⟩
    ⟨[], [], [], []⟩).1 rfl

/-- Any outcome of `createOrUpdateContact` either leaves the database
unchanged or is a success: every local write happens after the last
fallible step. -/
theorem createOrUpdateContact_state_or_ok
    (upd : String → ZohoContactData → Except TRPCError ZohoContact)
    (cre : ZohoContactData → Except TRPCError ZohoContact)
    (sessionUserId : String) (input : ContactMutationInput) (db : DB) :
    (createOrUpdateContact upd cre sessionUserId input db).2 = db ∨
      ∃ r, (createOrUpdateContact upd cre sessionUserId input db).1 = .ok r := by
  unfold createOrUpdateContact
  dsimp only
  split
  · exact Or.inl rfl
  · split
    · exact Or.inl rfl
    · split
      · exact Or.inl rfl
      · split
        · exact Or.inl rfl
        · split
          · exact Or.inl rfl
          · exact Or.inr ⟨_, rfl⟩

/-- Any outcome of `createSalesOrder` either leaves the database unchanged
or is a success. -/
theorem createSalesOrder_state_or_ok
    (creSO : ZohoSalesOrderData → Except TRPCError ZohoSalesOrder)
    (sessionUserId : String) (input : SalesOrderInput) (db : DB) :
    (createSalesOrder creSO sessionUserId input db).2 = db ∨
      ∃ r, (createSalesOrder creSO sessionUserId input db).1 = .ok r := by
  unfold createSalesOrder
  dsimp only
  split
  · exact Or.inl rfl
  · split
    · exact Or.inl rfl
    · split
      · exact Or.inl rfl
      · split
        · exact Or.inl rfl
        · split
          · exact Or.inl rfl
          · split
            · exact Or.inl rfl
            · exact Or.inr ⟨_, rfl⟩

/-- C6: for both advance operations, a failed run — in particular one whose
remote CRM write throws — leaves the whole local database, and so the
session status, at its prior value; the operations are retryable. -/
theorem advance_failure_leaves_state_unchanged :
    (∀ (upd : String → ZohoContactData → Except TRPCError ZohoContact)
        (cre : ZohoContactData → Except TRPCError ZohoContact)
        (sessionUserId : String) (input : ContactMutationInput) (db : DB)
        (e : TRPCError),
      (createOrUpdateContact upd cre sessionUserId input db).1 = .error e →
      (createOrUpdateContact upd cre sessionUserId input db).2 = db) ∧
    (∀ (creSO : ZohoSalesOrderData → Except TRPCError ZohoSalesOrder)
        (sessionUserId : String) (input : SalesOrderInput) (db : DB)
        (e : TRPCError),
      (createSalesOrder creSO sessionUserId input db).1 = .error e →
      (createSalesOrder creSO sessionUserId input db).2 = db) := by
  constructor
  · intro upd cre sessionUserId input db e h
    rcases createOrUpdateContact_state_or_ok upd cre sessionUserId input db with
      h2 | ⟨r, h2⟩
    · exact h2
    · have := h.symm.trans h2
      simp at this
  · intro creSO sessionUserId input db e h
    rcases createSalesOrder_state_or_ok creSO sessionUserId input db with
      h2 | ⟨r, h2⟩
    · exact h2
    · have := h.symm.trans h2
      simp at this

/-- Witness for C6: with a failing remote adapter both advance operations
leave the concrete database untouched. -/
theorem advance_failure_leaves_state_unchanged_witness :
    (createOrUpdateContact updFail creFail "u1" ⟨none, "cs1", true⟩ c6Db).2 = c6Db ∧
    (createSalesOrder creSOFail "u1" ⟨"cs1", true, true⟩ c6Db).2 = c6Db :=
  ⟨advance_failure_leaves_state_unchanged.1 updFail creFail "u1" ⟨none, "cs1", true⟩
      c6Db ⟨.INTERNAL_SERVER_ERROR, "Zoho API error: down"⟩ rfl,
   advance_failure_leaves_state_unchanged.2 creSOFail "u1" ⟨"cs1", true, true⟩
      c6Db ⟨.BAD_REQUEST, "Payment must be confirmed before creating sales order"⟩ rfl⟩

/-- `lookupLinkId` never returns the empty remote id. -/
theorem lookupLinkId_ne_empty (links : List ZohoAccountLink) (uid s : String)
    (h : lookupLinkId links uid = some s) : s ≠ "" := by
  unfold lookupLinkId at h
  split at h
  · rename_i l hfind
    split at h
    · cases h
    · rename_i hb
      injection h with h'
      subst h'
      simpa using hb
  · cases h

/-- Success shape of `remoteContactStep`: the returned id is the stored id
on the update path and a nonempty created id otherwise, and the flag records
exactly whether a stored id existed. -/
theorem remoteContactStep_ok
    (upd : String → ZohoContactData → Except TRPCError ZohoContact)
    (cre : ZohoContactData → Except TRPCError ZohoContact)
    (existing : Option String) (contactData : ZohoContactData)
    (zid : String) (isUp : Bool)
    (h : remoteContactStep upd cre existing contactData = .ok (zid, isUp)) :
    isUp = existing.isSome ∧
    (∀ s, existing = some s → zid = s) ∧
    (existing = none → zid ≠ "") := by
  unfold remoteContactStep at h
  split at h
  · rename_i storedId
    split at h
    · cases h
    · rename_i resp hu
      split at h
      · cases h
      · rename_i hid
        injection h with h'
        injection h' with ha hb
        subst ha
        subst hb
        refine ⟨rfl, ?_, ?_⟩
        · intro s hs
          cases hs
          rfl
        · intro hn
          cases hn
  · split at h
    · cases h
    · rename_i resp hc hid
      split at h
      · cases h
      · rename_i hid2
        injection h with h'
        injection h' with ha hb
        subst ha
        subst hb
        refine ⟨rfl, ?_, ?_⟩
        · intro s hs
          cases hs
        · intro _
          simpa using hid2

/-- Success shape of `createOrUpdateContact`: the remote id is nonempty, the
`isUpdate` flag records whether a stored link id existed (and agrees with it
when it did), and the new database carries exactly the upserted link table. -/
theorem createOrUpdateContact_ok_shape
    (upd : String → ZohoContactData → Except TRPCError ZohoContact)
    (cre : ZohoContactData → Except TRPCError ZohoContact)
    (sessionUserId : String) (input : ContactMutationInput) (db : DB)
    (r : ContactResult) (db' : DB)
    (h : createOrUpdateContact upd cre sessionUserId input db = (.ok r, db')) :
    r.zohoContactId ≠ "" ∧
    r.isUpdate =
      (lookupLinkId db.zohoAccountLinks (input.userId.getD sessionUserId)).isSome ∧
    (∀ s, lookupLinkId db.zohoAccountLinks (input.userId.getD sessionUserId) = some s →
      r.zohoContactId = s) ∧
    db'.zohoAccountLinks =
      upsertZohoLink db.zohoAccountLinks (input.userId.getD sessionUserId)
        r.zohoContactId := by
  unfold createOrUpdateContact at h
  dsimp only at h
  split at h
  · simp at h
  · split at h
    · simp at h
    · split at h
      · simp at h
      · split at h
        · simp at h
        · split at h
          · simp at h
          · rename_i zid isUp heq
            simp only [Prod.mk.injEq, Except.ok.injEq] at h
            obtain ⟨h1, h2⟩ := h
            subst h1
            subst h2
            obtain ⟨hflag, hstored, hnew⟩ :=
              remoteContactStep_ok _ _ _ _ _ _ heq
            refine ⟨?_, ?_, ?_, rfl⟩
            · show zid ≠ ""
              cases hlook : lookupLinkId db.zohoAccountLinks
                  (input.userId.getD sessionUserId) with
              | some stored =>
                rw [hstored stored hlook]
                exact lookupLinkId_ne_empty _ _ _ hlook
              | none => exact hnew hlook
            · show isUp = _
              rw [hflag]
            · intro s hs
              exact hstored s hs

/-- Rewriting the stored remote id of every row for `uid` does not change
how many rows the table holds for `uid`. -/
theorem countP_map_setlink (uid z : String) (links : List ZohoAccountLink) :
    (links.map
        (fun l => if l.userId == uid then { l with zohoUserId := z } else l)).countP
      (fun l => l.userId == uid) = links.countP (fun l => l.userId == uid) := by
  induction links with
  | nil => rfl
  | cons head tail ih =>
    simp only [List.map_cons, List.countP_cons, ih]
    by_cases hh : (head.userId == uid) = true
    · rw [if_pos hh]
    · rw [if_neg hh]

/-- The upsert keyed on `userId` leaves exactly one link row for that user
whenever the table held at most one before (the unique index invariant). -/
theorem upsert_countP (links : List ZohoAccountLink) (uid z : String)
    (h : links.countP (fun l => l.userId == uid) ≤ 1) :
    (upsertZohoLink links uid z).countP (fun l => l.userId == uid) = 1 := by
  unfold upsertZohoLink
  split
  · rename_i hany
    rw [countP_map_setlink]
    rcases List.any_eq_true.mp hany with ⟨x, hx, hpx⟩
    have hpos : 0 < links.countP (fun l => l.userId == uid) :=
      List.countP_pos_iff.mpr ⟨x, hx, hpx⟩
    omega
  · rename_i hany
    have hzero : links.countP (fun l => l.userId == uid) = 0 := by
      apply List.countP_eq_zero.mpr
      intro x hx
      by_contra hpx
      exact hany (List.any_eq_true.mpr ⟨x, hx, by simpa using hpx⟩)
    simp [List.countP_cons, hzero]

/-- After setting the link for `uid` on a list containing a row for `uid`,
the first row found for `uid` carries the new remote id. -/
theorem find?_map_setlink (uid z : String) (links : List ZohoAccountLink)
    (h : ∃ x ∈ links, (x.userId == uid) = true) :
    ∃ l', (links.map
        (fun l => if l.userId == uid then { l with zohoUserId := z } else l)).find?
          (fun l => l.userId == uid) = some l' ∧ l'.zohoUserId = z := by
  induction links with
  | nil => rcases h with ⟨x, hx, _⟩; cases hx
  | cons head tail ih =>
    by_cases hh : (head.userId == uid) = true
    · refine ⟨{ head with zohoUserId := z }, ?_, rfl⟩
      simp only [List.map_cons, if_pos hh]
      simp [List.find?_cons, hh]
    · rcases h with ⟨x, hx, hpx⟩
      rcases List.mem_cons.mp hx with rfl | hx'
      · exact absurd hpx hh
      · rcases ih ⟨x, hx', hpx⟩ with ⟨l', hfind, hzid⟩
        refine ⟨l', ?_, hzid⟩
        simp only [List.map_cons, if_neg hh]
        have hh' : (head.userId == uid) = false := by
          simpa using hh
        simp only [List.find?_cons, hh']
        exact hfind

/-- After an upsert with a nonempty remote id, the stored-id lookup for that
user yields exactly the upserted id. -/
theorem upsert_lookup (links : List ZohoAccountLink) (uid z : String)
    (hz : (z == "") = false) :
    lookupLinkId (upsertZohoLink links uid z) uid = some z := by
  unfold upsertZohoLink
  split
  · rename_i hany
    rcases find?_map_setlink uid z links (List.any_eq_true.mp hany) with
      ⟨l', hfind, hzid⟩
    unfold lookupLinkId
    rw [hfind]
    dsimp only
    simp [hzid, hz]
  · simp [lookupLinkId, List.find?_cons, hz]

/-- C2: under the unique-index invariant (at most one link row per
principal), two successful sequential `createOrUpdateContact` calls with the
same input leave exactly one `ZohoAccountLink` row for the principal; the
second call reports `isUpdate = true`, and the first call reported
`isUpdate = true` exactly when a stored link already existed (issuing its
update against the stored remote id). -/
theorem createOrUpdateContact_idempotent
    (upd : String → ZohoContactData → Except TRPCError ZohoContact)
    (cre : ZohoContactData → Except TRPCError ZohoContact)
    (sessionUserId : String) (input : ContactMutationInput) (db : DB)
    (r1 r2 : ContactResult) (db1 db2 : DB)
    (hcount : db.zohoAccountLinks.countP
        (fun l => l.userId == input.userId.getD sessionUserId) ≤ 1)
    (h1 : createOrUpdateContact upd cre sessionUserId input db = (.ok r1, db1))
    (h2 : createOrUpdateContact upd cre sessionUserId input db1 = (.ok r2, db2)) :
    r2.isUpdate = true ∧
    db2.zohoAccountLinks.countP
      (fun l => l.userId == input.userId.getD sessionUserId) = 1 ∧
    r1.isUpdate =
      (lookupLinkId db.zohoAccountLinks (input.userId.getD sessionUserId)).isSome := by
  obtain ⟨hne1, hflag1, _, hlinks1⟩ :=
    createOrUpdateContact_ok_shape upd cre sessionUserId input db r1 db1 h1
  obtain ⟨hne2, hflag2, _, hlinks2⟩ :=
    createOrUpdateContact_ok_shape upd cre sessionUserId input db1 r2 db2 h2
  have hz1 : (r1.zohoContactId == "") = false := by
    simpa using hne1
  have hlook1 : lookupLinkId db1.zohoAccountLinks (input.userId.getD sessionUserId)
      = some r1.zohoContactId := by
    rw [hlinks1]
    exact upsert_lookup _ _ _ hz1
  have hcount1 : db1.zohoAccountLinks.countP
      (fun l => l.userId == input.userId.getD sessionUserId) = 1 := by
    rw [hlinks1]
    exact upsert_countP _ _ _ hcount
  refine ⟨?_, ?_, hflag1⟩
  · rw [hflag2, hlook1]
    rfl
  · rw [hlinks2]
    exact upsert_countP _ _ _ (le_of_eq hcount1)

/-- Witness for C2: running the contact mutation twice on the concrete
database `c6Db` (create then update) yields `isUpdate = true` on the second
run and exactly one link row. -/
theorem createOrUpdateContact_idempotent_witness :
    (⟨"ZC1", true⟩ : ContactResult).isUpdate = true ∧
    c2Db1.zohoAccountLinks.countP (fun l => l.userId == "u1") = 1 ∧
    (⟨"ZC1", false⟩ : ContactResult).isUpdate =
      (lookupLinkId c6Db.zohoAccountLinks "u1").isSome :=
  createOrUpdateContact_idempotent updOk creOk "u1" c2Input c6Db
    ⟨"ZC1", false⟩ ⟨"ZC1", true⟩ c2Db1 c2Db1 (by decide) rfl rfl

/-- Every appended fragment has length 1 when the random index is in range,
so the fold grows by exactly one character per draw. -/
theorem code_fold_length (rand : Nat → Nat) (l : List Nat) (init : List Char)
    (h : ∀ i ∈ l, rand i < 36) :
    (l.foldl (fun r i => r ++ jsCharAt loginCodeChars (rand i)) init).length
      = init.length + l.length := by
  induction l generalizing init with
  | nil => simp
  | cons a l ih =>
    have ha : rand a < 36 := h a (List.mem_cons_self a l)
    have hone : (jsCharAt loginCodeChars (rand a)).length = 1 := by
      unfold jsCharAt
      cases hg : loginCodeChars.data.get? (rand a) with
      | none =>
        have hlen : loginCodeChars.data.length ≤ rand a := List.get?_eq_none.mp hg
        have h36 : loginCodeChars.data.length = 36 := by decide
        omega
      | some c => simp
    rw [List.foldl_cons, ih _ (fun i hi => h i (List.mem_cons_of_mem _ hi))]
    simp [List.length_append, hone]
    omega

/-- Every character produced by the fold is either from the accumulator or
from the login-code alphabet. -/
theorem code_fold_chars (rand : Nat → Nat) (l : List Nat) (init : List Char) :
    ∀ c ∈ l.foldl (fun r i => r ++ jsCharAt loginCodeChars (rand i)) init,
      c ∈ init ∨ c ∈ loginCodeChars.data := by
  induction l generalizing init with
  | nil => intro c hc; exact Or.inl hc
  | cons a l ih =>
    intro c hc
    rw [List.foldl_cons] at hc
    rcases ih _ c hc with hinit | hchars
    · rcases List.mem_append.mp hinit with h1 | h2
      · exact Or.inl h1
      · right
        unfold jsCharAt at h2
        cases hg : loginCodeChars.data.get? (rand a) with
        | none => rw [hg] at h2; cases h2
        | some ch =>
          rw [hg] at h2
          rcases List.mem_singleton.mp h2 with rfl
          exact List.get?_mem hg
    · exact Or.inr hchars

/-- Shape of `generateSecureLoginCode`: twelve characters, all drawn from
the 36-symbol uppercase-alphanumeric alphabet. -/
theorem generateSecureLoginCode_shape (rand : Nat → Nat)
    (h : ∀ i, i < 12 → rand i < 36) :
    (generateSecureLoginCode rand).length = 12 ∧
    ∀ c ∈ (generateSecureLoginCode rand).data, c ∈ loginCodeChars.data := by
  constructor
  · show ((List.range 12).foldl
      (fun r i => r ++ jsCharAt loginCodeChars (rand i)) []).length = 12
    rw [code_fold_length rand (List.range 12) []
      (fun i hi => h i (List.mem_range.mp hi))]
    simp
  · intro c hc
    have hc' : c ∈ (List.range 12).foldl
        (fun r i => r ++ jsCharAt loginCodeChars (rand i)) [] := hc
    rcases code_fold_chars rand (List.range 12) [] c hc' with h1 | h2
    · cases h1
    · exact h2

/-- C9 (amended): a link issued by `generateSignupLink` carries a 12-character
code over the 36-symbol alphabet, expiry equal to issuance time plus the
requested ttl, `usage_count = 0`, `usage_limit = 1` and `active = true`; but
when the generated code collides with an existing link's code the create
fails with an error — no retry is performed. -/
theorem generateSignupLink_issuance
    (getContact : String → Except TRPCError (Option ZohoContact))
    (rand : Nat → Nat) (now : Int) (newId : String) (appUrl : String)
    (input : GenerateInput) (db : DB) (contact : ZohoContact)
    (hc : getContact input.zoho_id = .ok (some contact))
    (hr : ∀ i, i < 12 → rand i < 36) :
    (db.signupLinks.any
        (fun l => l.login_code == generateSecureLoginCode rand) = false →
      ∃ link url,
        generateSignupLink getContact rand now newId appUrl input db =
          (.ok (link, url), { db with signupLinks := link :: db.signupLinks }) ∧
        link.login_code = generateSecureLoginCode rand ∧
        link.login_code.length = 12 ∧
        (∀ c ∈ link.login_code.data, c ∈ loginCodeChars.data) ∧
        link.zoho_id = input.zoho_id ∧
        link.expires_at = now + input.expiresInDays ∧
        link.usage_limit = 1 ∧ link.usage_count = 0 ∧ link.is_active = true) ∧
    (db.signupLinks.any
        (fun l => l.login_code == generateSecureLoginCode rand) = true →
      generateSignupLink getContact rand now newId appUrl input db =
        (.error ⟨.INTERNAL_SERVER_ERROR, "Failed to generate signup link"⟩, db)) := by
  obtain ⟨hlen, hchars⟩ := generateSecureLoginCode_shape rand hr
  constructor
  · intro hany
    refine ⟨⟨newId, input.zoho_id, generateSecureLoginCode rand,
        now + input.expiresInDays, 1, 0, true⟩,
      appUrl ++ "/magic-link/" ++ input.zoho_id ++ "/" ++ generateSecureLoginCode rand,
      ?_, rfl, hlen, hchars, rfl, rfl, rfl, rfl, rfl⟩
    simp [generateSignupLink, hc, hany]
  · intro hany
    simp [generateSignupLink, hc, hany]

/-- Witness for the amended C9 on an empty database with `c9Rand`. -/
theorem generateSignupLink_issuance_witness :
    (DB.signupLinks ⟨[], [], [], []⟩).any
        (fun l => l.login_code == generateSecureLoginCode c9Rand) = false ∧
    ((DB.signupLinks ⟨[], [], [], []⟩).any
        (fun l => l.login_code == generateSecureLoginCode c9Rand) = false →
      ∃ link url,
        generateSignupLink c1GetContact c9Rand 0 "N1" "https://app" ⟨"Z1", 7⟩
            ⟨[], [], [], []⟩ =
          (.ok (link, url),
            { (⟨[], [], [], []⟩ : DB) with signupLinks := link :: [] }) ∧
        link.login_code = generateSecureLoginCode c9Rand ∧
        link.login_code.length = 12 ∧
        (∀ c ∈ link.login_code.data, c ∈ loginCodeChars.data) ∧
        link.zoho_id = "Z1" ∧
        link.expires_at = 0 + 7 ∧
        link.usage_limit = 1 ∧ link.usage_count = 0 ∧ link.is_active = true) :=
  ⟨rfl,
   (generateSignupLink_issuance c1GetContact c9Rand 0 "N1" "https://app" ⟨"Z1", 7⟩
      ⟨[], [], [], []⟩ c1Contact rfl (fun _ _ => (by decide : (5 : Nat) < 36))).1⟩

/-- C9 counterexample: when the freshly generated code collides with an
existing link's code, `generateSignupLink` does not retry generation — it
fails with an `INTERNAL_SERVER_ERROR`. -/
theorem generateSignupLink_collision_fails :
    generateSignupLink c1GetContact c9RandZero 0 "N2" "https://app" ⟨"Z9", 7⟩ c9Db =
      (.error ⟨.INTERNAL_SERVER_ERROR, "Failed to generate signup link"⟩, c9Db) :=
  rfl

/-- C10: the register endpoint returns 400 `User already exists` and leaves
the user table unchanged when the email is taken; it creates a row exactly
when validation passed and the email was unused. -/
theorem registerPOST_duplicate_email
    (hashFn : String → String) (newId : String)
    (parsed : Option RegData) (users : List UserStoreRow) :
    (∀ r : RegData, parsed = some r → (∃ u ∈ users, u.email = r.email) →
      registerPOST hashFn newId parsed users =
        (.badRequest "User already exists", users)) ∧
    (∀ r : RegData, parsed = some r →
      users.find? (fun u => u.email == r.email) = none →
      registerPOST hashFn newId parsed users =
        (.created newId r.email r.name,
          ⟨newId, r.email, r.name, hashFn r.password⟩ :: users)) ∧
    ((registerPOST hashFn newId parsed users).2 ≠ users →
      ∃ r, parsed = some r ∧
        users.find? (fun u => u.email == r.email) = none) := by
  refine ⟨?_, ?_, ?_⟩
  · rintro r hp ⟨u, hu, he⟩
    subst hp
    have hsome : (users.find? (fun u => u.email == r.email)).isSome :=
      List.find?_isSome.mpr ⟨u, hu, by simp [he]⟩
    rcases Option.isSome_iff_exists.mp hsome with ⟨v, hv⟩
    simp [registerPOST, hv]
  · intro r hp hf
    subst hp
    simp [registerPOST, hf]
  · intro hne
    cases hp : parsed with
    | none => exact absurd (by simp [registerPOST, hp]) hne
    | some r =>
      cases hf : users.find? (fun u => u.email == r.email) with
      | some v => exact absurd (by simp [registerPOST, hp, hf]) hne
      | none => exact ⟨r, rfl, hf⟩

/-- Witness for C10: registering with a taken email yields 400 and leaves
the store unchanged. -/
theorem registerPOST_duplicate_email_witness :
    registerPOST (fun p => p) "u2" (some c10Reg) [c10User] =
      (.badRequest "User already exists", [c10User]) :=
  (registerPOST_duplicate_email (fun p => p) "u2" (some c10Reg) [c10User]).1
    c10Reg rfl ⟨c10User, List.mem_singleton.mpr rfl, rfl⟩

end Vintel
